import Mathlib

/-!
Shallow embedding of the rampart branch-protection auditor.

Source layout (Go):
- internal/config/config.go : Rules, RuleDiff, Default, ToAPIPayload,
  ProtectionResponse, RulesFromResponse, Compare
- internal/github/repos.go  : Repo, GetBranchProtection (classification of
  the fetch outcome into success / not-found / forbidden / other)
- internal/cli (audit file)  : RepoAuditResult, auditRepos, the audit
  command non-compliant counting and exit decision

Go slices distinguish nil from an empty slice; the RequiredChecks field is
therefore modelled as Option (List String), none standing for a nil slice.
Go ints are modelled as Int (only equality and decimal printing are used,
so overflow is irrelevant).
-/

namespace Rampart

/-- Branch protection rules (struct Rules in internal/config/config.go). -/
structure Rules where
  requirePullRequest : Bool
  requiredApprovals : Int
  dismissStaleReviews : Bool
  requireCodeOwnerReviews : Bool
  requireStatusChecks : Bool
  strictStatusChecks : Bool
  requiredChecks : Option (List String)
  enforceAdmins : Bool
  allowForcePushes : Bool
  allowDeletions : Bool
  requiredLinearHistory : Bool
  requiredConversationResolution : Bool
deriving Repr, DecidableEq

/-- The Go zero value of Rules (config.Rules\x7b\x7d): all booleans false,
count 0, nil checks slice. -/
def Rules.zero : Rules :=
  { requirePullRequest := false
    requiredApprovals := 0
    dismissStaleReviews := false
    requireCodeOwnerReviews := false
    requireStatusChecks := false
    strictStatusChecks := false
    requiredChecks := none
    enforceAdmins := false
    allowForcePushes := false
    allowDeletions := false
    requiredLinearHistory := false
    requiredConversationResolution := false }

/-- The configuration file contents (struct Config). -/
structure Config where
  branch : String
  rules : Rules
deriving Repr, DecidableEq

/-- Default returns a Config with sensible defaults (func Default in
config.go), written by the init command. -/
def Default : Config :=
  { branch := "main"
    rules :=
      { requirePullRequest := true
        requiredApprovals := 1
        dismissStaleReviews := true
        requireCodeOwnerReviews := false
        requireStatusChecks := false
        strictStatusChecks := true
        requiredChecks := some []
        enforceAdmins := true
        allowForcePushes := false
        allowDeletions := false
        requiredLinearHistory := false
        requiredConversationResolution := false } }

/-- A single rule comparison row (struct RuleDiff). -/
structure RuleDiff where
  rule : String
  pass : Bool
  want : String
  got : String
deriving Repr, DecidableEq

/-- Reading a possibly nil Go slice: len and range treat nil as empty. -/
def sliceElems : Option (List String) → List String
  | none => []
  | some xs => xs

/-- Rendering of a Bool by fmt.Sprintf with the t verb. -/
def boolStr (b : Bool) : String := if b then "true" else "false"

/-- Rendering of a string slice by fmt.Sprintf with the v verb:
space-separated elements between square brackets. -/
def fmtChecks (o : Option (List String)) : String :=
  "[" ++ String.intercalate " " (sliceElems o) ++ "]"

/-- The addBoolDiff closure inside Compare: passes iff the two booleans
are equal, rendering both sides with the t verb. -/
def addBoolDiff (rule : String) (want got : Bool) : RuleDiff :=
  { rule := rule, pass := want == got, want := boolStr want, got := boolStr got }

/-- The required-checks comparison inside Compare: lengths equal, and every
element of the actual slice is a key of the set built from the desired
slice.  No check that every desired element occurs in actual, and no
deduplication. -/
def checksMatch (desired actual : Option (List String)) : Bool :=
  (sliceElems desired).length == (sliceElems actual).length
    && (sliceElems actual).all (fun c => (sliceElems desired).contains c)

/-- Compare compares desired rules against actual rules and returns diffs
(func Compare in config.go), appending rows in the fixed source order. -/
def Compare (desired actual : Rules) : List RuleDiff :=
  [addBoolDiff "require_pull_request" desired.requirePullRequest actual.requirePullRequest]
    ++ (if desired.requirePullRequest then
          [{ rule := "required_approvals"
             pass := desired.requiredApprovals == actual.requiredApprovals
             want := toString desired.requiredApprovals
             got := toString actual.requiredApprovals },
           addBoolDiff "dismiss_stale_reviews" desired.dismissStaleReviews actual.dismissStaleReviews,
           addBoolDiff "require_code_owner_reviews" desired.requireCodeOwnerReviews actual.requireCodeOwnerReviews]
        else [])
    ++ [addBoolDiff "require_status_checks" desired.requireStatusChecks actual.requireStatusChecks]
    ++ (if desired.requireStatusChecks then
          [addBoolDiff "strict_status_checks" desired.strictStatusChecks actual.strictStatusChecks,
           { rule := "required_checks"
             pass := checksMatch desired.requiredChecks actual.requiredChecks
             want := fmtChecks desired.requiredChecks
             got := fmtChecks actual.requiredChecks }]
        else [])
    ++ [addBoolDiff "enforce_admins" desired.enforceAdmins actual.enforceAdmins,
        addBoolDiff "allow_force_pushes" desired.allowForcePushes actual.allowForcePushes,
        addBoolDiff "allow_deletions" desired.allowDeletions actual.allowDeletions,
        addBoolDiff "required_linear_history" desired.requiredLinearHistory actual.requiredLinearHistory,
        addBoolDiff "required_conversation_resolution" desired.requiredConversationResolution actual.requiredConversationResolution]

/-- JSON values as produced for the protection-update payload. -/
inductive JSONValue where
  | null
  | bool (b : Bool)
  | int (n : Int)
  | str (s : String)
  | arr (xs : List JSONValue)
  | obj (fields : List (String × JSONValue))
deriving Repr

/-- ToAPIPayload translates Rules into the branch-protection PUT payload
(method ToAPIPayload in config.go).  The Go value is a string-keyed map;
it is modelled as an association list queried by key. -/
def ToAPIPayload (r : Rules) : List (String × JSONValue) :=
  [("enforce_admins", JSONValue.bool r.enforceAdmins),
   ("allow_force_pushes", JSONValue.bool r.allowForcePushes),
   ("allow_deletions", JSONValue.bool r.allowDeletions),
   ("required_linear_history", JSONValue.bool r.requiredLinearHistory),
   ("required_conversation_resolution", JSONValue.bool r.requiredConversationResolution),
   ("restrictions", JSONValue.null),
   ("required_pull_request_reviews",
     if r.requirePullRequest then
       JSONValue.obj
         [("required_approving_review_count", JSONValue.int r.requiredApprovals),
          ("dismiss_stale_reviews", JSONValue.bool r.dismissStaleReviews),
          ("require_code_owner_reviews", JSONValue.bool r.requireCodeOwnerReviews)]
     else JSONValue.null),
   ("required_status_checks",
     if r.requireStatusChecks then
       JSONValue.obj
         [("strict", JSONValue.bool r.strictStatusChecks),
          ("contexts",
            match r.requiredChecks with
            | none => JSONValue.null
            | some xs => JSONValue.arr (xs.map JSONValue.str)),
          ("checks",
            JSONValue.arr ((sliceElems r.requiredChecks).map
              (fun c => JSONValue.obj [("context", JSONValue.str c)])))]
     else JSONValue.null)]

/-- The pointer substructure required_pull_request_reviews of the
protection response. -/
structure PRReviewsResp where
  requiredApprovingReviewCount : Int
  dismissStaleReviews : Bool
  requireCodeOwnerReviews : Bool
deriving Repr, DecidableEq

/-- The pointer substructure required_status_checks of the protection
response; Contexts is a Go slice that may be nil. -/
structure StatusChecksResp where
  strict : Bool
  contexts : Option (List String)
deriving Repr, DecidableEq

/-- The branch-protection GET response (struct ProtectionResponse in
config.go); the two pointer substructures are Options. -/
structure ProtectionResponse where
  requiredPullRequestReviews : Option PRReviewsResp
  requiredStatusChecks : Option StatusChecksResp
  enforceAdmins : Bool
  allowForcePushes : Bool
  allowDeletions : Bool
  requiredLinearHistory : Bool
  requiredConversationResolution : Bool
deriving Repr, DecidableEq

/-- RulesFromResponse converts a protection response into Rules
(func RulesFromResponse in config.go). -/
def RulesFromResponse (resp : ProtectionResponse) : Rules :=
  let base : Rules :=
    { Rules.zero with
        enforceAdmins := resp.enforceAdmins
        allowForcePushes := resp.allowForcePushes
        allowDeletions := resp.allowDeletions
        requiredLinearHistory := resp.requiredLinearHistory
        requiredConversationResolution := resp.requiredConversationResolution
        requiredChecks := some [] }
  let withPR :=
    match resp.requiredPullRequestReviews with
    | none => base
    | some pr =>
      { base with
          requirePullRequest := true
          requiredApprovals := pr.requiredApprovingReviewCount
          dismissStaleReviews := pr.dismissStaleReviews
          requireCodeOwnerReviews := pr.requireCodeOwnerReviews }
  match resp.requiredStatusChecks with
  | none => withPR
  | some sc =>
    { withPR with
        requireStatusChecks := true
        strictStatusChecks := sc.strict
        requiredChecks :=
          match sc.contexts with
          | none => withPR.requiredChecks
          | some cs => some cs }

/-- A repository as returned by the listing endpoint (struct Repo in
internal/github/repos.go). -/
structure Repo where
  name : String
  fork : Bool
  archived : Bool
  defaultBranch : String
deriving Repr, DecidableEq

/-- Classified outcome of running the protection GET through the gh CLI:
a parsed response, a 404 (no protection), a 403 (no permission), or any
other failure carrying its stderr text. -/
inductive FetchResult where
  | success (resp : ProtectionResponse)
  | notFound
  | forbidden
  | otherError (stderr : String)
deriving Repr, DecidableEq

/-- GetBranchProtection (internal/github/repos.go): returns the triple
(rules, ok, err).  A 404 yields Rules with an explicit empty checks slice,
ok true and no error; a 403 yields the zero Rules, ok false AND the error
"insufficient permissions"; any other failure yields ok false and a
formatted error. -/
def GetBranchProtection : FetchResult → Rules × Bool × Option String
  | FetchResult.success resp => (RulesFromResponse resp, true, none)
  | FetchResult.notFound => ({ Rules.zero with requiredChecks := some [] }, true, none)
  | FetchResult.forbidden => (Rules.zero, false, some "insufficient permissions")
  | FetchResult.otherError stderr => (Rules.zero, false, some ("gh api failed: " ++ stderr))

/-- Per-repository audit outcome (struct RepoAuditResult in the cli
package). -/
structure RepoAuditResult where
  repo : String
  compliant : Bool
  diffs : List RuleDiff
  error : String
  skipped : Bool
deriving Repr, DecidableEq

/-- One iteration of the loop body of auditRepos (cli package): exclusion
check, then the fetch with the error check before the ok check, then the
comparison.  The fetch oracle is invoked with the repository name and the
configured branch string, exactly as the source passes cfg.Branch. -/
def auditOneRepo (cfg : Config) (exclude : List String)
    (fetchProtection : String → String → FetchResult) (r : Repo) : RepoAuditResult :=
  if exclude.contains r.name then
    { repo := r.name, compliant := false, diffs := [], error := "excluded", skipped := true }
  else
    match GetBranchProtection (fetchProtection r.name cfg.branch) with
    | (_, _, some msg) =>
      { repo := r.name, compliant := false, diffs := [], error := msg, skipped := false }
    | (actual, ok, none) =>
      if !ok then
        { repo := r.name, compliant := false, diffs := [], error := "insufficient permissions", skipped := true }
      else
        let diffs := Compare cfg.rules actual
        { repo := r.name
          compliant := diffs.all (fun d => d.pass)
          diffs := diffs
          error := ""
          skipped := false }

/-- auditRepos (cli package): sequential loop over the repositories,
appending one result per repository in order. -/
def auditRepos (cfg : Config) (exclude : List String) (repos : List Repo)
    (fetchProtection : String → String → FetchResult) : List RepoAuditResult :=
  repos.map (auditOneRepo cfg exclude fetchProtection)

/-- The counting loop of the audit command: skipped results are passed over,
errored results and non-compliant results each increment the
non-compliant counter. -/
def countNonCompliant (results : List RepoAuditResult) : Nat :=
  results.foldl
    (fun n r =>
      if r.skipped then n
      else if r.error != "" then n + 1
      else if r.compliant then n
      else n + 1)
    0

/-- The audit command exits with a non-zero status exactly when the
non-compliant counter is positive. -/
def auditExitNonzero (results : List RepoAuditResult) : Bool :=
  decide (0 < countNonCompliant results)

/-- The sequence of rule names Compare emits, as a function of the desired
side flags requirePullRequest and requireStatusChecks alone. -/
def compareRuleNames (requirePR requireSC : Bool) : List String :=
  ["require_pull_request"]
    ++ (if requirePR then
          ["required_approvals", "dismiss_stale_reviews", "require_code_owner_reviews"]
        else [])
    ++ ["require_status_checks"]
    ++ (if requireSC then ["strict_status_checks", "required_checks"] else [])
    ++ ["enforce_admins", "allow_force_pushes", "allow_deletions",
        "required_linear_history", "required_conversation_resolution"]

end Rampart

namespace Rampart

/-- Helper: the folded counter of the audit command equals the number of
results that are neither skipped nor clean (errored or non-compliant). -/
theorem countNonCompliant_eq_filter (results : List RepoAuditResult) :
    countNonCompliant results =
      (results.filter (fun r => !r.skipped && (r.error != "" || !r.compliant))).length := by
  have key : ∀ (l : List RepoAuditResult) (n : Nat),
      l.foldl
        (fun n r =>
          if r.skipped then n
          else if r.error != "" then n + 1
          else if r.compliant then n
          else n + 1)
        n = n + (l.filter (fun r => !r.skipped && (r.error != "" || !r.compliant))).length := by
    intro l
    induction l with
    | nil => intro n; simp
    | cons r rest ih =>
      intro n
      rw [List.foldl_cons, ih, List.filter_cons]
      by_cases hs : r.skipped = true
      · simp [hs]
      · rw [Bool.not_eq_true] at hs
        by_cases he : (r.error != "") = true
        · simp [hs, he]
          omega
        · rw [Bool.not_eq_true] at he
          by_cases hc : r.compliant = true
          · simp [hs, he, hc]
          · rw [Bool.not_eq_true] at hc
            simp [hs, he, hc]
            omega
  rw [countNonCompliant, key results 0, Nat.zero_add]

/-- C1: a repository whose protection fetch is classified forbidden (403)
is recorded with skipped = false and the error message, i.e. as Errored,
not as Skipped; it increments the non-compliant counter and forces a
non-zero exit.  The ok = false branch of the audit loop is unreachable
because the 403 path of GetBranchProtection also returns a non-nil
error, which the loop checks first. -/
theorem forbidden_fetch_recorded_errored :
    (auditOneRepo Default [] (fun _ _ => FetchResult.forbidden)
        { name := "repo1", fork := false, archived := false, defaultBranch := "main" }
      = { repo := "repo1", compliant := false, diffs := [],
          error := "insufficient permissions", skipped := false })
    ∧ countNonCompliant
        (auditRepos Default []
          [{ name := "repo1", fork := false, archived := false, defaultBranch := "main" }]
          (fun _ _ => FetchResult.forbidden)) = 1
    ∧ auditExitNonzero
        (auditRepos Default []
          [{ name := "repo1", fork := false, archived := false, defaultBranch := "main" }]
          (fun _ _ => FetchResult.forbidden)) = true :=
  ⟨rfl, rfl, rfl⟩

/-- C2 counterexample: with desired checks [a, b] and actual checks
[a, a], the required_checks diff does NOT fail: no diff row named
required_checks with pass = false exists, refuting the claim that this
input fails. -/
theorem required_checks_duplicates_counterexample :
    ¬ ∃ diff ∈ Compare
        { Rules.zero with requireStatusChecks := true, requiredChecks := some ["a", "b"] }
        { Rules.zero with requireStatusChecks := true, requiredChecks := some ["a", "a"] },
      diff.rule = "required_checks" ∧ diff.pass = false := by
  decide

/-- C2 amended: with desired.requireStatusChecks true, desired checks
[a, b] against actual [b, a] passes, and desired [a, b] against actual
[a, a] ALSO passes, since the comparison only checks equal lengths and
membership of each actual element in the desired set. -/
theorem required_checks_order_and_duplicates :
    ((Compare { Rules.zero with requireStatusChecks := true, requiredChecks := some ["a", "b"] }
        { Rules.zero with requireStatusChecks := true, requiredChecks := some ["b", "a"] }).filter
      (fun d => d.rule == "required_checks"))
      = [{ rule := "required_checks", pass := true, want := "[a b]", got := "[b a]" }]
    ∧ ((Compare { Rules.zero with requireStatusChecks := true, requiredChecks := some ["a", "b"] }
        { Rules.zero with requireStatusChecks := true, requiredChecks := some ["a", "a"] }).filter
      (fun d => d.rule == "required_checks"))
      = [{ rule := "required_checks", pass := true, want := "[a b]", got := "[a a]" }] :=
  ⟨rfl, rfl⟩

/-- C3: with the configured branch set to the sentinel string, the driver
passes that literal string to the protection fetch; it never resolves the
default branch of the repository.  An oracle that fails on the literal branch
and would succeed on the actual default branch of the repository sees the
failure surface in the audit result. -/
theorem sentinel_branch_used_literally :
    auditRepos { branch := "default", rules := Default.rules } []
        [{ name := "r", fork := false, archived := false, defaultBranch := "main" }]
        (fun _ branch =>
          if branch == "default" then FetchResult.otherError "no branch named default"
          else FetchResult.notFound)
      = [{ repo := "r", compliant := false, diffs := [],
           error := "gh api failed: no branch named default", skipped := false }] :=
  rfl

/-- C4 counterexample: Default sets strictStatusChecks to true, not
false, refuting the claim that every rule field other than the four
listed true ones is false. -/
theorem default_strict_status_checks_counterexample :
    Default.rules.strictStatusChecks = true ∧ ¬ Default.rules.strictStatusChecks = false := by
  decide

/-- C4 amended: Default returns the fixed baseline with
requirePullRequest true, requiredApprovals 1, dismissStaleReviews true,
enforceAdmins true, an empty (non-nil) requiredChecks list,
strictStatusChecks true, and every other rule field false. -/
theorem default_policy_fields :
    Default.rules.requirePullRequest = true ∧
    Default.rules.requiredApprovals = 1 ∧
    Default.rules.dismissStaleReviews = true ∧
    Default.rules.enforceAdmins = true ∧
    Default.rules.requiredChecks = some [] ∧
    Default.rules.strictStatusChecks = true ∧
    Default.rules.requireCodeOwnerReviews = false ∧
    Default.rules.requireStatusChecks = false ∧
    Default.rules.allowForcePushes = false ∧
    Default.rules.allowDeletions = false ∧
    Default.rules.requiredLinearHistory = false ∧
    Default.rules.requiredConversationResolution = false := by
  decide

/-- C5: whenever desired.requireStatusChecks holds, Compare emits a
required_checks diff that passes exactly when the two check lists have
equal length and every element of the actual list occurs in the desired
list; no containment in the other direction is checked and nothing is
deduplicated. -/
theorem required_checks_diff_iff (d a : Rules) (h : d.requireStatusChecks = true) :
    ∃ diff ∈ Compare d a, diff.rule = "required_checks" ∧
      (diff.pass = true ↔
        ((sliceElems d.requiredChecks).length = (sliceElems a.requiredChecks).length ∧
          ∀ c ∈ sliceElems a.requiredChecks, c ∈ sliceElems d.requiredChecks)) := by
  refine ⟨{ rule := "required_checks"
            pass := checksMatch d.requiredChecks a.requiredChecks
            want := fmtChecks d.requiredChecks
            got := fmtChecks a.requiredChecks }, ?_, rfl, ?_⟩
  · cases hp : d.requirePullRequest <;> simp [Compare, hp, h]
  · simp [checksMatch, List.all_eq_true, List.contains]

/-- Witness for C5 at desired checks [a, b], actual checks [b, a]. -/
theorem required_checks_diff_iff_witness :
    ∃ diff ∈ Compare
        { Rules.zero with requireStatusChecks := true, requiredChecks := some ["a", "b"] }
        { Rules.zero with requiredChecks := some ["b", "a"] },
      diff.rule = "required_checks" ∧
        (diff.pass = true ↔
          ((["a", "b"] : List String).length = (["b", "a"] : List String).length ∧
            ∀ c ∈ (["b", "a"] : List String), c ∈ (["a", "b"] : List String))) :=
  required_checks_diff_iff
    { Rules.zero with requireStatusChecks := true, requiredChecks := some ["a", "b"] }
    { Rules.zero with requiredChecks := some ["b", "a"] } rfl

/-- C6: a repository whose fetch returns not-found is compared against
the all-false Rules baseline with an explicit empty checks list and is
never skipped; if additionally the policy requires enforceAdmins, the
enforce_admins diff fails with want true, got false, and the repository
is non-compliant. -/
theorem notfound_compared_as_empty_baseline (cfg : Config) (exclude : List String)
    (fetchProtection : String → String → FetchResult) (r : Repo)
    (hex : exclude.contains r.name = false)
    (hf : fetchProtection r.name cfg.branch = FetchResult.notFound) :
    (auditOneRepo cfg exclude fetchProtection r =
      { repo := r.name
        compliant :=
          (Compare cfg.rules { Rules.zero with requiredChecks := some [] }).all
            (fun d => d.pass)
        diffs := Compare cfg.rules { Rules.zero with requiredChecks := some [] }
        error := ""
        skipped := false })
    ∧ (cfg.rules.enforceAdmins = true →
        { rule := "enforce_admins", pass := false, want := "true", got := "false" }
            ∈ Compare cfg.rules { Rules.zero with requiredChecks := some [] }
          ∧ (Compare cfg.rules { Rules.zero with requiredChecks := some [] }).all
              (fun d => d.pass) = false) := by
  have hex2 : r.name ∉ exclude := by simpa using hex
  constructor
  · simp [auditOneRepo, hex2, hf, GetBranchProtection]
  · intro ha
    have hmem :
        { rule := "enforce_admins", pass := false, want := "true", got := "false" }
          ∈ Compare cfg.rules { Rules.zero with requiredChecks := some [] } := by
      cases hp : cfg.rules.requirePullRequest <;>
        cases hs : cfg.rules.requireStatusChecks <;>
          simp [Compare, addBoolDiff, boolStr, ha, hp, hs, Rules.zero]
    refine ⟨hmem, ?_⟩
    rw [← Bool.not_eq_true, List.all_eq_true]
    intro hall
    have := hall _ hmem
    simp at this

/-- Witness for C6: the default policy (which requires enforceAdmins)
audited against a repository with no protection configured. -/
theorem notfound_compared_as_empty_baseline_witness :
    { rule := "enforce_admins", pass := false, want := "true", got := "false" }
        ∈ Compare Default.rules { Rules.zero with requiredChecks := some [] }
      ∧ (Compare Default.rules { Rules.zero with requiredChecks := some [] }).all
          (fun d => d.pass) = false :=
  (notfound_compared_as_empty_baseline Default [] (fun _ _ => FetchResult.notFound)
    { name := "r", fork := false, archived := false, defaultBranch := "main" }
    rfl rfl).2 rfl

/-- C7: for every pair of Rules, Compare emits its diffs in the fixed
source order, with the three review diffs present exactly when the
desired side requires pull requests and the two status-check diffs
present exactly when the desired side requires status checks. -/
theorem compare_emission_order (d a : Rules) :
    (Compare d a).map (fun x => x.rule) =
      ["require_pull_request"]
        ++ (if d.requirePullRequest then
              ["required_approvals", "dismiss_stale_reviews", "require_code_owner_reviews"]
            else [])
        ++ ["require_status_checks"]
        ++ (if d.requireStatusChecks then ["strict_status_checks", "required_checks"] else [])
        ++ ["enforce_admins", "allow_force_pushes", "allow_deletions",
            "required_linear_history", "required_conversation_resolution"] := by
  cases hp : d.requirePullRequest <;> cases hs : d.requireStatusChecks <;>
    simp [Compare, hp, hs, addBoolDiff]

/-- C8: the audit exit decision is non-zero exactly when the
non-compliant counter is positive, and that counter counts precisely the
results that are not skipped and are either errored or non-compliant. -/
theorem audit_exit_iff_noncompliant (results : List RepoAuditResult) :
    countNonCompliant results =
      (results.filter (fun r => !r.skipped && (r.error != "" || !r.compliant))).length
    ∧ (auditExitNonzero results = true ↔
        0 < (results.filter (fun r => !r.skipped && (r.error != "" || !r.compliant))).length) := by
  refine ⟨countNonCompliant_eq_filter results, ?_⟩
  rw [auditExitNonzero, countNonCompliant_eq_filter results]
  exact decide_eq_true_iff

/-- C9: when status checks are not required, the PUT payload maps the
required_status_checks key to JSON null; conversely a response with an
absent required_status_checks substructure deserializes to rules with
requireStatusChecks false and an explicit empty (non-nil) checks list. -/
theorem status_checks_null_roundtrip :
    (∀ r : Rules, r.requireStatusChecks = false →
        (ToAPIPayload r).lookup "required_status_checks" = some JSONValue.null)
    ∧ (∀ resp : ProtectionResponse, resp.requiredStatusChecks = none →
        (RulesFromResponse resp).requireStatusChecks = false ∧
          (RulesFromResponse resp).requiredChecks = some []) := by
  constructor
  · intro r h
    simp [ToAPIPayload, h, List.lookup]
  · intro resp h
    cases hpr : resp.requiredPullRequestReviews <;>
      simp [RulesFromResponse, h, hpr, Rules.zero]

/-- Witness for C9 at the zero Rules value and a response with both
substructures absent and all toggles false. -/
theorem status_checks_null_roundtrip_witness :
    (ToAPIPayload Rules.zero).lookup "required_status_checks" = some JSONValue.null
    ∧ ((RulesFromResponse
          { requiredPullRequestReviews := none
            requiredStatusChecks := none
            enforceAdmins := false
            allowForcePushes := false
            allowDeletions := false
            requiredLinearHistory := false
            requiredConversationResolution := false }).requireStatusChecks = false
        ∧ (RulesFromResponse
            { requiredPullRequestReviews := none
              requiredStatusChecks := none
              enforceAdmins := false
              allowForcePushes := false
              allowDeletions := false
              requiredLinearHistory := false
              requiredConversationResolution := false }).requiredChecks = some []) :=
  ⟨status_checks_null_roundtrip.1 Rules.zero rfl,
   status_checks_null_roundtrip.2
     { requiredPullRequestReviews := none
       requiredStatusChecks := none
       enforceAdmins := false
       allowForcePushes := false
       allowDeletions := false
       requiredLinearHistory := false
       requiredConversationResolution := false } rfl⟩

/-- C10: the names, order and count of the diffs Compare emits are a
function of the desired requirePullRequest and
requireStatusChecks flags alone; the actual side never changes which
rows appear. -/
theorem compare_shape_desired_only (d a : Rules) :
    (Compare d a).map (fun x => x.rule) =
        compareRuleNames d.requirePullRequest d.requireStatusChecks
    ∧ (Compare d a).length =
        7 + (if d.requirePullRequest then 3 else 0) +
          (if d.requireStatusChecks then 2 else 0) := by
  cases hp : d.requirePullRequest <;> cases hs : d.requireStatusChecks <;>
    simp [Compare, compareRuleNames, hp, hs, addBoolDiff]

end Rampart
